import Mathlib

/-
Shallow embedding of `paddlets/models/forecasting/ml/adapter/ml_dataset.py`
(class `MLDataset`).

Modelling conventions:
* A time-indexed series (paddlets `TimeSeries`) is a `Series`: an integer
  `start` timestamp together with the list of matrix rows.  All series of one
  `TSDataset` share a fixed frequency, so timestamps are modelled as integers
  in units of that frequency; the timestamp of row `i` is `start + i`.
* numpy/pandas positional slicing `a[l:u]` (negative bounds wrap around,
  out-of-range bounds clamp) is `pySlice`; Python list / pandas positional
  indexing `a[i]` (negative wraps, out of range raises) is `pyGet`.
* `pandas.Index.get_loc(ts)` on a contiguous fixed-frequency index is
  `getLoc` (`none` models the KeyError for an absent timestamp).
* Every `raise_if` of the source is a `raiseIf`; the whole of
  `MLDataset.__init__` is `construct`, which first runs the validation chain
  (`validateSeries`) and then the sample builder (`buildSamplesList`,
  translating `_build_samples`), exactly in source order.
-/

namespace PaddleTS

/-- Error kinds surfaced by `MLDataset.__init__` / `__getitem__`: one
constructor per `raise_if` site of the source, plus `lookupError` for the
pandas `get_loc` / positional-indexing exceptions. -/
inductive Err where
  | nullDataset
  | nullTarget
  | emptyTarget
  | invalidInChunkLen
  | invalidSkipChunkLen
  | invalidOutChunkLen
  | invalidStride
  | targetTooShort
  | windowLowerBound
  | windowUpperBound
  | knownTimestampTooEarly
  | knownCovInsufficient
  | observedTimestampTooEarly
  | lookupError
  | indexOutOfRange
deriving DecidableEq

/-- Sequencing of fallible steps, i.e. ordinary Python control flow where an
earlier raise aborts the constructor. -/
def bindE {α β : Type} (a : Except Err α) (f : α → Except Err β) : Except Err β :=
  match a with
  | .error e => .error e
  | .ok x => f x

/-- `raise_if(cond, msg)` of `paddlets.logger`. -/
def raiseIf (c : Prop) [Decidable c] (e : Err) : Except Err Unit :=
  if c then .error e else .ok ()

/-- Clamping of one Python slice bound against a length `n`: negative values
count from the end, then the result is clamped into `[0, n]`. -/
def pyClamp (n : Nat) (i : Int) : Nat :=
  if i < 0 then ((n : Int) + i).toNat else min i.toNat n

/-- Python / numpy row slice `xs[l:u]` (step 1). -/
def pySlice {α : Type} (xs : List α) (l u : Int) : List α :=
  (xs.drop (pyClamp xs.length l)).take (pyClamp xs.length u - pyClamp xs.length l)

/-- Resolution of a possibly negative Python index against a length `n`. -/
def pyIndex (n : Nat) (i : Int) : Int :=
  if i < 0 then (n : Int) + i else i

/-- Python positional indexing `xs[i]`: negative indices count from the end,
out-of-range indices fail. -/
def pyGet {α : Type} (xs : List α) (i : Int) : Option α :=
  if 0 ≤ pyIndex xs.length i ∧ pyIndex xs.length i < (xs.length : Int) then
    xs.get? (pyIndex xs.length i).toNat
  else none

/-- A time-indexed series: `start` is the timestamp of row 0 (in frequency
units) and `rows` the numeric matrix, one list entry per timestamp. -/
structure Series where
  start : Int
  rows : List (List Int)
deriving DecidableEq

/-- The (strictly increasing, fixed-frequency) timestamp index of a series. -/
def timeIndex (s : Series) : List Int :=
  (List.range s.rows.length).map (fun i : Nat => s.start + (i : Int))

/-- `pandas.Index.get_loc`: position of a timestamp in the contiguous
fixed-frequency index, `none` when absent (KeyError). -/
def getLoc (s : Series) (ts : Int) : Option Nat :=
  if s.start ≤ ts ∧ ts < s.start + (s.rows.length : Int) then some (ts - s.start).toNat
  else none

/-- Positional index lookup lifted to the error monad (an out-of-range
positional access raises). -/
def pyGetE {α : Type} (xs : List α) (i : Int) : Except Err α :=
  match pyGet xs i with
  | some a => .ok a
  | none => .error .lookupError

/-- `get_loc` lifted to the error monad (KeyError on absence). -/
def getLocE (s : Series) (ts : Int) : Except Err Nat :=
  match getLoc s ts with
  | some n => .ok n
  | none => .error .lookupError

/-- `TSDataset` as consumed by the adapter: required target plus the two
optional covariate series (the static covariates play no role here). -/
structure RawDataset where
  target : Option Series
  known_cov : Option Series
  observed_cov : Option Series

/-- One built sample (`_build_samples` assembles a dict with these four
matrices; an absent part is the canonical empty matrix `np.zeros((0,0))`). -/
structure Sample where
  past_target : List (List Int)
  future_target : List (List Int)
  known_cov : List (List Int)
  observed_cov : List (List Int)
deriving DecidableEq

/-- `_compute_min_allowed_window` (ml_dataset.py lines 839-849). -/
def minAllowedWindow (in0 skip out : Int) : Int :=
  max 1 in0 + skip + out - 1

/-- Max allowed window upper bound (ml_dataset.py line 302). -/
def maxAllowedWindow (targetLen : Nat) (skip out : Int) : Int :=
  (targetLen : Int) - 1 + skip + out

/-- Scalar validation of `__init__` (lines 263-279): target length and the
four chunk/stride arity checks, in source order. -/
def checkScalars (tgt : Series) (in0 out skip stride : Int) : Except Err Unit :=
  bindE (raiseIf (tgt.rows.length < 1) .emptyTarget) fun _ =>
  bindE (raiseIf (in0 < 0) .invalidInChunkLen) fun _ =>
  bindE (raiseIf (skip < 0) .invalidSkipChunkLen) fun _ =>
  bindE (raiseIf (out ≤ 0) .invalidOutChunkLen) fun _ =>
  raiseIf (stride ≤ 0) .invalidStride

/-- Default `time_window` resolution (lines 281-294): a caller-supplied
window is taken as is; an omitted one requires the target to be long enough
and defaults to `(min_allowed_window, len(target) - 1)`. -/
def resolveWindow (tgt : Series) (in0 out skip : Int) (win : Option (Int × Int)) :
    Except Err (Int × Int) :=
  match win with
  | some w0 => .ok w0
  | none =>
      bindE (raiseIf ((tgt.rows.length : Int) < max 1 in0 + skip + out) .targetTooShort) fun _ =>
      .ok (minAllowedWindow in0 skip out, (tgt.rows.length : Int) - 1)

/-- Window bound validation (lines 296-306). -/
def checkWindowBounds (tgt : Series) (in0 out skip : Int) (w : Int × Int) : Except Err Unit :=
  bindE (raiseIf (w.1 < minAllowedWindow in0 skip out) .windowLowerBound) fun _ =>
  raiseIf (maxAllowedWindow tgt.rows.length skip out < w.2) .windowUpperBound

/-- Target length validation under the two regimes (lines 310-334). -/
def checkTargetLen (tgt : Series) (in0 out skip : Int) (w : Int × Int) : Except Err Unit :=
  raiseIf ((tgt.rows.length : Int) <
      (if (tgt.rows.length : Int) - 1 < w.2 then max 1 in0 else max 1 in0 + skip + out))
    .targetTooShort

/-- known_cov validation (lines 336-412).  `tgt.start + (len - 1)` is
`target.time_index[max_target_idx]`, always a valid position because the
target was already checked nonempty. -/
def checkKnownCov (tgt : Series) (kno : Option Series) (w : Int × Int) :
    Except Err Unit :=
  match kno with
  | none => .ok ()
  | some k =>
      if (tgt.rows.length : Int) - 1 < w.2 then
        bindE (pyGetE (timeIndex k) (-1)) fun kLast =>
        bindE (raiseIf (kLast < tgt.start + ((tgt.rows.length : Int) - 1))
          .knownTimestampTooEarly) fun _ =>
        bindE (getLocE k (tgt.start + ((tgt.rows.length : Int) - 1))) fun idx =>
        raiseIf (((k.rows.length : Int) - (idx : Int)) ≤ w.2 - ((tgt.rows.length : Int) - 1))
          .knownCovInsufficient
      else
        bindE (pyGetE (timeIndex tgt) w.2) fun upperTs =>
        bindE (pyGetE (timeIndex k) (-1)) fun kLast =>
        raiseIf (kLast < upperTs) .knownTimestampTooEarly

/-- observed_cov validation (lines 414-457). -/
def checkObservedCov (tgt : Series) (obs : Option Series) (out skip : Int) (w : Int × Int) :
    Except Err Unit :=
  match obs with
  | none => .ok ()
  | some o =>
      if (tgt.rows.length : Int) - 1 < w.2 then
        bindE (pyGetE (timeIndex o) (-1)) fun oLast =>
        raiseIf (oLast < tgt.start + ((tgt.rows.length : Int) - 1)) .observedTimestampTooEarly
      else
        bindE (pyGetE (timeIndex tgt) (w.2 - skip - out)) fun ts =>
        bindE (pyGetE (timeIndex o) (-1)) fun oLast =>
        raiseIf (oLast < ts) .observedTimestampTooEarly

/-- The whole eager validation phase of `__init__` after the null checks,
including resolution of the default window, in source order. -/
def validateSeries (tgt : Series) (kno obs : Option Series) (in0 out skip stride : Int)
    (win : Option (Int × Int)) : Except Err (Int × Int) :=
  bindE (checkScalars tgt in0 out skip stride) fun _ =>
  bindE (resolveWindow tgt in0 out skip win) fun w =>
  bindE (checkWindowBounds tgt in0 out skip w) fun _ =>
  bindE (checkTargetLen tgt in0 out skip w) fun _ =>
  bindE (checkKnownCov tgt kno w) fun _ =>
  bindE (checkObservedCov tgt obs out skip w) fun _ =>
  .ok w

/-- Resolution of `known_cov_right_tail` for one sample (lines 795-804). -/
def knownRightTail (tgt k : Series) (out skip : Int) (t : Int) : Except Err Int :=
  if (tgt.rows.length : Int) - 1 < t then
    bindE (pyGetE (timeIndex tgt) (-1)) fun maxTs =>
    bindE (getLocE k maxTs) fun idx =>
    .ok ((idx : Int) + skip + out)
  else
    bindE (pyGetE (timeIndex tgt) t) fun ts =>
    bindE (getLocE k ts) fun idx =>
    .ok (idx : Int)

/-- known_cov chunk of one sample: `np.vstack((left, right))` of the two
sub-slices (lines 805-813). -/
def buildKnownChunk (tgt k : Series) (in0 out skip : Int) (t : Int) :
    Except Err (List (List Int)) :=
  bindE (knownRightTail tgt k out skip t) fun rightTail =>
  .ok (pySlice k.rows ((rightTail - out - skip) - in0 + 1) ((rightTail - out - skip) + 1)
        ++ pySlice k.rows (rightTail - out + 1) (rightTail + 1))

/-- observed_cov chunk of one sample (lines 820-825); the chunk length is
`_observed_cov_chunk_len = 1 if in_chunk_len == 0 else in_chunk_len`. -/
def buildObservedChunk (tgt o : Series) (in0 out skip : Int) (t : Int) :
    Except Err (List (List Int)) :=
  bindE (pyGetE (timeIndex tgt) (t - out - skip)) fun ts =>
  bindE (getLocE o ts) fun obsTail =>
  .ok (pySlice o.rows ((obsTail : Int) - (if in0 = 0 then 1 else in0) + 1) ((obsTail : Int) + 1))

/-- `past_target` of the sample at tail `t` (lines 782-790); empty in the
lag case `in_chunk_len == 0`. -/
def pastTargetChunk (tgt : Series) (in0 out skip : Int) (t : Int) : List (List Int) :=
  if in0 = 0 then []
  else pySlice tgt.rows ((t - out - skip) - in0 + 1) ((t - out - skip) + 1)

/-- `future_target` of the sample at tail `t` (lines 772-780); empty for an
inference-only sample whose tail lies past the end of the target. -/
def futureTargetChunk (tgt : Series) (out : Int) (t : Int) : List (List Int) :=
  if (tgt.rows.length : Int) - 1 < t then []
  else pySlice tgt.rows (t - out + 1) (t + 1)

/-- One iteration of the `_build_samples` loop body at tail index `t`
(lines 770-832). -/
def buildSample (tgt : Series) (kno obs : Option Series) (in0 out skip : Int) (t : Int) :
    Except Err Sample :=
  bindE (match kno with
         | none => .ok ([] : List (List Int))
         | some k => buildKnownChunk tgt k in0 out skip t) fun known =>
  bindE (match obs with
         | none => .ok ([] : List (List Int))
         | some o => buildObservedChunk tgt o in0 out skip t) fun observed =>
  .ok ⟨pastTargetChunk tgt in0 out skip t, futureTargetChunk tgt out t, known, observed⟩

/-- The tail indices visited by the `while future_target_tail <= upper` loop,
starting at `lower` and stepping by `stride` (lines 767-836).  The fuel
argument only serves structural termination; `sampleTails` supplies enough
fuel for any positive stride (with a non-positive stride the Python loop
would not terminate, which is unreachable because the stride was
validated). -/
def sampleTailsAux (fuel : Nat) (lower upper stride : Int) : List Int :=
  match fuel with
  | 0 => []
  | fuel + 1 =>
      if lower ≤ upper then lower :: sampleTailsAux fuel (lower + stride) upper stride
      else []

/-- Tail indices of all samples of the window. -/
def sampleTails (lower upper stride : Int) : List Int :=
  sampleTailsAux (upper + 1 - lower).toNat lower upper stride

/-- The `_build_samples` loop over a list of tail indices. -/
def buildSamplesList (tgt : Series) (kno obs : Option Series) (in0 out skip : Int) :
    List Int → Except Err (List Sample)
  | [] => .ok []
  | t :: ts =>
      bindE (buildSample tgt kno obs in0 out skip t) fun s =>
      bindE (buildSamplesList tgt kno obs in0 out skip ts) fun rest =>
      .ok (s :: rest)

/-- The constructed adapter dataset: the resolved window and the eagerly
built sample sequence. -/
structure MLDataset where
  window : Int × Int
  samples : List Sample
deriving DecidableEq

/-- `__init__` after the two null checks: validate, then build all samples. -/
def constructCore (tgt : Series) (kno obs : Option Series) (in0 out skip stride : Int)
    (win : Option (Int × Int)) : Except Err MLDataset :=
  bindE (validateSeries tgt kno obs in0 out skip stride win) fun w =>
  bindE (buildSamplesList tgt kno obs in0 out skip (sampleTails w.1 w.2 stride)) fun ss =>
  .ok ⟨w, ss⟩

/-- `MLDataset.__init__` (lines 243-459). -/
def construct (rdOpt : Option RawDataset) (in0 out skip stride : Int)
    (win : Option (Int × Int)) : Except Err MLDataset :=
  match rdOpt with
  | none => .error .nullDataset
  | some rd =>
      match rd.target with
      | none => .error .nullTarget
      | some tgt => constructCore tgt rd.known_cov rd.observed_cov in0 out skip stride win

/-- `__len__` (lines 461-462). -/
def length (d : MLDataset) : Nat :=
  d.samples.length

/-- `__getitem__` (lines 464-470): plain Python list indexing on the built
sample list. -/
def getItem (d : MLDataset) (i : Int) : Except Err Sample :=
  match pyGet d.samples i with
  | some s => .ok s
  | none => .error .indexOutOfRange

/-! Concrete instances used to exercise the definitions.  Timestamps are in
frequency units; e.g. `tgt5` is a 5-row single-column target starting at
timestamp 0. -/

def tgt1 : Series := ⟨0, [[5]]⟩

def tgt2 : Series := ⟨0, [[0], [1]]⟩

def tgt3 : Series := ⟨0, [[1], [2], [3]]⟩

def tgt5 : Series := ⟨0, [[0], [10], [20], [30], [40]]⟩

def known5 : Series := ⟨0, [[10], [20], [30], [40], [50]]⟩

def obs5 : Series := ⟨0, [[9], [8], [7], [6], [5]]⟩

/-- A target whose known covariate `knownShort` starts one step later, so the
first sample's known-cov left slice runs off the head of the covariate. -/
def shortTarget : Series := ⟨0, [[0], [1], [2]]⟩

/-- Known covariate covering only timestamps 1 and 2 of `shortTarget`. -/
def knownShort : Series := ⟨1, [[10], [20]]⟩

/-- Dataset built from `tgt5` with stride 2 and the default window `(1, 4)`. -/
def strideTwoDs : MLDataset :=
  ⟨(1, 4), [⟨[[0]], [[10]], [], []⟩, ⟨[[20]], [[30]], [], []⟩]⟩

/-- Dataset built from `tgt5` with stride 1 and the default window `(1, 4)`. -/
def strideOneDs : MLDataset :=
  ⟨(1, 4), [⟨[[0]], [[10]], [], []⟩, ⟨[[10]], [[20]], [], []⟩,
            ⟨[[20]], [[30]], [], []⟩, ⟨[[30]], [[40]], [], []⟩]⟩

/-- Dataset built from `tgt3` with known covariate `known5` and the default
window `(1, 2)`. -/
def knownTrainDs : MLDataset :=
  ⟨(1, 2), [⟨[[1]], [[2]], [[10], [20]], []⟩, ⟨[[2]], [[3]], [[20], [30]], []⟩]⟩

/-- Inference dataset built from `tgt3` and `known5` with window `(3, 3)`. -/
def knownInferDs : MLDataset :=
  ⟨(3, 3), [⟨[[3]], [], [[30], [40]], []⟩]⟩

/-- Dataset built from `tgt2` with the default window `(1, 1)`. -/
def twoRowDs : MLDataset :=
  ⟨(1, 1), [⟨[[0]], [[1]], [], []⟩]⟩

/-! ### Basic lemmas on the Python-semantics primitives -/

theorem bindE_ok_iff {α β : Type} {a : Except Err α} {f : α → Except Err β} {b : β} :
    bindE a f = .ok b ↔ ∃ x, a = .ok x ∧ f x = .ok b := by
  cases a <;> simp [bindE]

theorem bindE_error_iff {α β : Type} {a : Except Err α} {f : α → Except Err β} {e : Err} :
    bindE a f = .error e ↔ a = .error e ∨ ∃ x, a = .ok x ∧ f x = .error e := by
  cases a <;> simp [bindE]

theorem raiseIf_ok_iff {c : Prop} [Decidable c] {e : Err} {u : Unit} :
    raiseIf c e = .ok u ↔ ¬ c := by
  cases u; unfold raiseIf; split <;> simp_all

theorem raiseIf_error_iff {c : Prop} [Decidable c] {e e' : Err} :
    raiseIf c e = .error e' ↔ c ∧ e' = e := by
  unfold raiseIf; split <;> simp_all [eq_comm]

theorem pyClamp_le (n : Nat) (i : Int) : pyClamp n i ≤ n := by
  unfold pyClamp; split <;> omega

theorem pyClamp_of_nonneg {n : Nat} {i : Int} (h0 : 0 ≤ i) (h : i ≤ (n : Int)) :
    pyClamp n i = i.toNat := by
  unfold pyClamp; split <;> omega

theorem length_pySlice {α : Type} (xs : List α) (l u : Int) :
    (pySlice xs l u).length = pyClamp xs.length u - pyClamp xs.length l := by
  unfold pySlice
  rw [List.length_take, List.length_drop]
  have h1 := pyClamp_le xs.length u
  have h2 := pyClamp_le xs.length l
  omega

theorem length_pySlice_of_bounds {α : Type} (xs : List α) (l u : Int)
    (h0 : 0 ≤ l) (hlu : l ≤ u) (hu : u ≤ (xs.length : Int)) :
    ((pySlice xs l u).length : Int) = u - l := by
  rw [length_pySlice, pyClamp_of_nonneg (by omega) hu, pyClamp_of_nonneg h0 (by omega)]
  omega

theorem pyIndex_of_nonneg {n : Nat} {i : Int} (h0 : 0 ≤ i) : pyIndex n i = i := by
  unfold pyIndex; rw [if_neg (by omega)]

theorem pyIndex_of_neg {n : Nat} {i : Int} (h0 : i < 0) : pyIndex n i = (n : Int) + i := by
  unfold pyIndex; rw [if_pos h0]

theorem pyGet_of_nonneg {α : Type} {xs : List α} {i : Int}
    (h0 : 0 ≤ i) (h1 : i < (xs.length : Int)) :
    pyGet xs i = xs.get? i.toNat := by
  unfold pyGet
  rw [pyIndex_of_nonneg h0, if_pos ⟨h0, h1⟩]

theorem pyGet_of_neg {α : Type} {xs : List α} {i : Int}
    (h0 : i < 0) (h1 : 0 ≤ (xs.length : Int) + i) :
    pyGet xs i = xs.get? ((xs.length : Int) + i).toNat := by
  unfold pyGet
  rw [pyIndex_of_neg h0, if_pos ⟨h1, by omega⟩]

theorem pyGet_eq_none_iff {α : Type} {xs : List α} {i : Int} :
    pyGet xs i = none ↔ (i < -(xs.length : Int) ∨ (xs.length : Int) ≤ i) := by
  by_cases hneg : i < 0
  · by_cases hin : 0 ≤ (xs.length : Int) + i
    · rw [pyGet_of_neg hneg hin, List.get?_eq_none]
      omega
    · unfold pyGet
      rw [pyIndex_of_neg hneg, if_neg (fun hc => hin hc.1)]
      exact iff_of_true rfl (by omega)
  · by_cases hin : i < (xs.length : Int)
    · rw [pyGet_of_nonneg (by omega) hin, List.get?_eq_none]
      omega
    · unfold pyGet
      rw [pyIndex_of_nonneg (by omega), if_neg (fun hc => hin hc.2)]
      exact iff_of_true rfl (by omega)

theorem length_timeIndex (s : Series) : (timeIndex s).length = s.rows.length := by
  simp [timeIndex]

theorem pyGet_timeIndex {s : Series} {i : Int} (h0 : 0 ≤ i) (h1 : i < (s.rows.length : Int)) :
    pyGet (timeIndex s) i = some (s.start + i) := by
  rw [pyGet_of_nonneg h0 (by rw [length_timeIndex]; exact h1)]
  unfold timeIndex
  rw [List.get?_map, List.get?_range (by omega)]
  simp only [Option.map_some']
  congr 1
  omega

theorem pyGet_timeIndex_last {s : Series} (h : 1 ≤ s.rows.length) :
    pyGet (timeIndex s) (-1) = some (s.start + ((s.rows.length : Int) - 1)) := by
  have hlen : (timeIndex s).length = s.rows.length := length_timeIndex s
  rw [pyGet_of_neg (by omega) (by omega)]
  unfold timeIndex
  rw [List.length_map, List.length_range, List.get?_map, List.get?_range (by omega)]
  simp only [Option.map_some']
  congr 1
  omega

theorem pyGetE_ok_iff {α : Type} {xs : List α} {i : Int} {a : α} :
    pyGetE xs i = .ok a ↔ pyGet xs i = some a := by
  unfold pyGetE
  cases pyGet xs i <;> simp

theorem pyGetE_error {α : Type} {xs : List α} {i : Int} {e : Err}
    (h : pyGetE xs i = .error e) : e = .lookupError := by
  unfold pyGetE at h
  cases hp : pyGet xs i <;> rw [hp] at h <;> simp_all

theorem getLoc_eq_some_iff {s : Series} {ts : Int} {n : Nat} :
    getLoc s ts = some n ↔
      s.start ≤ ts ∧ ts < s.start + (s.rows.length : Int) ∧ (n : Int) = ts - s.start := by
  unfold getLoc
  split <;> simp_all <;> omega

theorem getLocE_ok_iff {s : Series} {ts : Int} {n : Nat} :
    getLocE s ts = .ok n ↔ getLoc s ts = some n := by
  unfold getLocE
  cases getLoc s ts <;> simp

theorem getLocE_error {s : Series} {ts : Int} {e : Err}
    (h : getLocE s ts = .error e) : e = .lookupError := by
  unfold getLocE at h
  cases hp : getLoc s ts <;> rw [hp] at h <;> simp_all

/-! ### The sampling loop -/

theorem sampleTailsAux_nil {upper stride : Int} (fuel : Nat) {lower : Int} (h : upper < lower) :
    sampleTailsAux fuel lower upper stride = [] := by
  cases fuel with
  | zero => rfl
  | succ f =>
      unfold sampleTailsAux
      rw [if_neg (by omega)]

theorem sampleTailsAux_length {stride : Int} (hs : 0 < stride) :
    ∀ (fuel : Nat) (lower upper : Int), lower ≤ upper → (upper + 1 - lower).toNat ≤ fuel →
      (sampleTailsAux fuel lower upper stride).length = (upper - lower).toNat / stride.toNat + 1 := by
  intro fuel
  induction fuel with
  | zero => intro lower upper h1 h2; omega
  | succ f ih =>
      intro lower upper h1 h2
      unfold sampleTailsAux
      rw [if_pos h1, List.length_cons]
      by_cases h3 : lower + stride ≤ upper
      · rw [ih (lower + stride) upper h3 (by omega)]
        have hsplit : (upper - lower).toNat = (upper - (lower + stride)).toNat + stride.toNat := by
          omega
        rw [hsplit, Nat.add_div_right _ (by omega)]
      · rw [sampleTailsAux_nil f (by omega)]
        rw [Nat.div_eq_of_lt (by omega)]
        rfl

theorem sampleTails_length {lower upper stride : Int} (hs : 0 < stride) (h : lower ≤ upper) :
    (sampleTails lower upper stride).length = (upper - lower).toNat / stride.toNat + 1 :=
  sampleTailsAux_length hs _ lower upper h (by omega)

theorem sampleTailsAux_get? {stride : Int} (hs : 0 < stride) :
    ∀ (fuel : Nat) (lower upper : Int) (i : Nat) (t : Int),
      (sampleTailsAux fuel lower upper stride).get? i = some t →
      t = lower + stride * (i : Int) ∧ lower ≤ t ∧ t ≤ upper := by
  intro fuel
  induction fuel with
  | zero => intro lower upper i t h; simp [sampleTailsAux] at h
  | succ f ih =>
      intro lower upper i t h
      unfold sampleTailsAux at h
      by_cases h1 : lower ≤ upper
      · rw [if_pos h1] at h
        cases i with
        | zero =>
            rw [List.get?_cons_zero] at h
            cases h
            refine ⟨by ring, le_refl _, h1⟩
        | succ j =>
            rw [List.get?_cons_succ] at h
            obtain ⟨ht, hl, hr⟩ := ih (lower + stride) upper j t h
            refine ⟨?_, by omega, hr⟩
            rw [ht]
            push_cast
            ring
      · rw [if_neg h1] at h
        simp at h

theorem sampleTails_get? {lower upper stride : Int} {i : Nat} {t : Int} (hs : 0 < stride)
    (h : (sampleTails lower upper stride).get? i = some t) :
    t = lower + stride * (i : Int) ∧ lower ≤ t ∧ t ≤ upper :=
  sampleTailsAux_get? hs _ lower upper i t h

/-! ### The sample builder -/

theorem knownRightTail_error {tgt k : Series} {out skip t : Int} {e : Err}
    (h : knownRightTail tgt k out skip t = .error e) : e = .lookupError := by
  unfold knownRightTail at h
  split at h <;>
    (rw [bindE_error_iff] at h
     rcases h with h | ⟨x, hx, h⟩
     · exact pyGetE_error h
     · rw [bindE_error_iff] at h
       rcases h with h | ⟨y, hy, h⟩
       · exact getLocE_error h
       · simp at h)

theorem buildKnownChunk_error {tgt k : Series} {in0 out skip t : Int} {e : Err}
    (h : buildKnownChunk tgt k in0 out skip t = .error e) : e = .lookupError := by
  unfold buildKnownChunk at h
  rw [bindE_error_iff] at h
  rcases h with h | ⟨x, hx, h⟩
  · exact knownRightTail_error h
  · simp at h

theorem buildObservedChunk_error {tgt o : Series} {in0 out skip t : Int} {e : Err}
    (h : buildObservedChunk tgt o in0 out skip t = .error e) : e = .lookupError := by
  unfold buildObservedChunk at h
  rw [bindE_error_iff] at h
  rcases h with h | ⟨x, hx, h⟩
  · exact pyGetE_error h
  · rw [bindE_error_iff] at h
    rcases h with h | ⟨y, hy, h⟩
    · exact getLocE_error h
    · simp at h

theorem buildSample_error {tgt : Series} {kno obs : Option Series} {in0 out skip t : Int} {e : Err}
    (h : buildSample tgt kno obs in0 out skip t = .error e) : e = .lookupError := by
  unfold buildSample at h
  rw [bindE_error_iff] at h
  rcases h with h | ⟨x, hx, h⟩
  · cases kno with
    | none => simp at h
    | some k => exact buildKnownChunk_error h
  · rw [bindE_error_iff] at h
    rcases h with h | ⟨y, hy, h⟩
    · cases obs with
      | none => simp at h
      | some o => exact buildObservedChunk_error h
    · simp at h

theorem buildSample_ok_inv {tgt : Series} {kno obs : Option Series} {in0 out skip t : Int}
    {s : Sample} (h : buildSample tgt kno obs in0 out skip t = .ok s) :
    s.past_target = pastTargetChunk tgt in0 out skip t ∧
    s.future_target = futureTargetChunk tgt out t ∧
    (∀ k, kno = some k → buildKnownChunk tgt k in0 out skip t = .ok s.known_cov) ∧
    (kno = none → s.known_cov = []) ∧
    (∀ o, obs = some o → buildObservedChunk tgt o in0 out skip t = .ok s.observed_cov) ∧
    (obs = none → s.observed_cov = []) := by
  unfold buildSample at h
  rw [bindE_ok_iff] at h
  obtain ⟨known, hk, h⟩ := h
  rw [bindE_ok_iff] at h
  obtain ⟨observed, ho, h⟩ := h
  cases h
  cases kno <;> cases obs <;> simp_all

theorem buildSamplesList_length {tgt : Series} {kno obs : Option Series} {in0 out skip : Int} :
    ∀ {ts : List Int} {ss : List Sample},
      buildSamplesList tgt kno obs in0 out skip ts = .ok ss → ss.length = ts.length := by
  intro ts
  induction ts with
  | nil =>
      intro ss h
      unfold buildSamplesList at h
      cases h
      rfl
  | cons t ts ih =>
      intro ss h
      unfold buildSamplesList at h
      rw [bindE_ok_iff] at h
      obtain ⟨s, hs, h⟩ := h
      rw [bindE_ok_iff] at h
      obtain ⟨rest, hrest, h⟩ := h
      cases h
      simp [ih hrest]

theorem buildSamplesList_get? {tgt : Series} {kno obs : Option Series} {in0 out skip : Int} :
    ∀ {ts : List Int} {ss : List Sample} {i : Nat} {s : Sample},
      buildSamplesList tgt kno obs in0 out skip ts = .ok ss → ss.get? i = some s →
      ∃ t, ts.get? i = some t ∧ buildSample tgt kno obs in0 out skip t = .ok s := by
  intro ts
  induction ts with
  | nil =>
      intro ss i s h hg
      unfold buildSamplesList at h
      cases h
      simp at hg
  | cons t ts ih =>
      intro ss i s h hg
      unfold buildSamplesList at h
      rw [bindE_ok_iff] at h
      obtain ⟨s0, hs0, h⟩ := h
      rw [bindE_ok_iff] at h
      obtain ⟨rest, hrest, h⟩ := h
      cases h
      cases i with
      | zero =>
          rw [List.get?_cons_zero] at hg
          cases hg
          exact ⟨t, List.get?_cons_zero, hs0⟩
      | succ j =>
          rw [List.get?_cons_succ] at hg
          obtain ⟨t', ht', hb⟩ := ih hrest hg
          exact ⟨t', by rw [List.get?_cons_succ]; exact ht', hb⟩

theorem buildSamplesList_error {tgt : Series} {kno obs : Option Series} {in0 out skip : Int} :
    ∀ {ts : List Int} {e : Err},
      buildSamplesList tgt kno obs in0 out skip ts = .error e → e = .lookupError := by
  intro ts
  induction ts with
  | nil =>
      intro e h
      unfold buildSamplesList at h
      simp at h
  | cons t ts ih =>
      intro e h
      unfold buildSamplesList at h
      rw [bindE_error_iff] at h
      rcases h with h | ⟨s, hs, h⟩
      · exact buildSample_error h
      · rw [bindE_error_iff] at h
        rcases h with h | ⟨rest, hrest, h⟩
        · exact ih h
        · simp at h

/-! ### The validation chain -/

theorem checkScalars_ok_iff {tgt : Series} {in0 out skip stride : Int} :
    checkScalars tgt in0 out skip stride = .ok () ↔
      1 ≤ tgt.rows.length ∧ 0 ≤ in0 ∧ 0 ≤ skip ∧ 0 < out ∧ 0 < stride := by
  unfold checkScalars
  simp only [bindE_ok_iff, raiseIf_ok_iff, exists_and_left, exists_const]
  omega

theorem checkScalars_error {tgt : Series} {in0 out skip stride : Int} {e : Err}
    (h : checkScalars tgt in0 out skip stride = .error e) :
    e = .emptyTarget ∨ e = .invalidInChunkLen ∨ e = .invalidSkipChunkLen ∨
      e = .invalidOutChunkLen ∨ e = .invalidStride := by
  unfold checkScalars at h
  simp only [bindE_error_iff, raiseIf_error_iff, raiseIf_ok_iff, exists_and_left,
    exists_const] at h
  tauto

theorem resolveWindow_some {tgt : Series} {in0 out skip : Int} {w0 : Int × Int} :
    resolveWindow tgt in0 out skip (some w0) = .ok w0 := rfl

theorem resolveWindow_ok_inv {tgt : Series} {in0 out skip : Int} {win : Option (Int × Int)}
    {w : Int × Int} (h : resolveWindow tgt in0 out skip win = .ok w) :
    win = some w ∨
      (win = none ∧ w = (minAllowedWindow in0 skip out, (tgt.rows.length : Int) - 1) ∧
        max 1 in0 + skip + out ≤ (tgt.rows.length : Int)) := by
  cases win with
  | some w0 =>
      cases h
      exact Or.inl rfl
  | none =>
      unfold resolveWindow at h
      rw [bindE_ok_iff] at h
      obtain ⟨u, hu, h⟩ := h
      rw [raiseIf_ok_iff] at hu
      cases h
      exact Or.inr ⟨rfl, rfl, by omega⟩

theorem resolveWindow_error {tgt : Series} {in0 out skip : Int} {win : Option (Int × Int)}
    {e : Err} (h : resolveWindow tgt in0 out skip win = .error e) : e = .targetTooShort := by
  cases win with
  | some w0 => cases h
  | none =>
      unfold resolveWindow at h
      rw [bindE_error_iff] at h
      rcases h with h | ⟨u, hu, h⟩
      · exact (raiseIf_error_iff.mp h).2
      · simp at h

theorem checkWindowBounds_ok_iff {tgt : Series} {in0 out skip : Int} {w : Int × Int} :
    checkWindowBounds tgt in0 out skip w = .ok () ↔
      minAllowedWindow in0 skip out ≤ w.1 ∧ w.2 ≤ maxAllowedWindow tgt.rows.length skip out := by
  unfold checkWindowBounds
  simp only [bindE_ok_iff]
  constructor
  · rintro ⟨u, hu, h⟩
    rw [raiseIf_ok_iff] at hu
    rw [raiseIf_ok_iff] at h
    omega
  · intro h
    exact ⟨(), raiseIf_ok_iff.mpr (by omega), raiseIf_ok_iff.mpr (by omega)⟩

theorem checkWindowBounds_error_iff {tgt : Series} {in0 out skip : Int} {w : Int × Int}
    {e : Err} :
    checkWindowBounds tgt in0 out skip w = .error e ↔
      ((e = .windowLowerBound ∧ w.1 < minAllowedWindow in0 skip out) ∨
       (e = .windowUpperBound ∧ minAllowedWindow in0 skip out ≤ w.1 ∧
        maxAllowedWindow tgt.rows.length skip out < w.2)) := by
  unfold checkWindowBounds
  rw [bindE_error_iff]
  constructor
  · rintro (h | ⟨u, hu, h⟩)
    · obtain ⟨hc, he⟩ := raiseIf_error_iff.mp h
      exact Or.inl ⟨he, hc⟩
    · rw [raiseIf_ok_iff] at hu
      obtain ⟨hc, he⟩ := raiseIf_error_iff.mp h
      exact Or.inr ⟨he, by omega, hc⟩
  · rintro (⟨he, hc⟩ | ⟨he, h1, h2⟩)
    · exact Or.inl (raiseIf_error_iff.mpr ⟨hc, he⟩)
    · exact Or.inr ⟨(), raiseIf_ok_iff.mpr (by omega), raiseIf_error_iff.mpr ⟨h2, he⟩⟩

theorem checkTargetLen_error {tgt : Series} {in0 out skip : Int} {w : Int × Int} {e : Err}
    (h : checkTargetLen tgt in0 out skip w = .error e) : e = .targetTooShort :=
  (raiseIf_error_iff.mp h).2

theorem checkKnownCov_error {tgt : Series} {kno : Option Series} {w : Int × Int} {e : Err}
    (h : checkKnownCov tgt kno w = .error e) :
    e = .lookupError ∨ e = .knownTimestampTooEarly ∨ e = .knownCovInsufficient := by
  unfold checkKnownCov at h
  split at h
  · exact absurd h (by simp)
  · split at h
    · rw [bindE_error_iff] at h
      rcases h with h | ⟨kLast, hk, h⟩
      · exact Or.inl (pyGetE_error h)
      rw [bindE_error_iff] at h
      rcases h with h | ⟨u, hu, h⟩
      · exact Or.inr (Or.inl (raiseIf_error_iff.mp h).2)
      rw [bindE_error_iff] at h
      rcases h with h | ⟨idx, hidx, h⟩
      · exact Or.inl (getLocE_error h)
      · exact Or.inr (Or.inr (raiseIf_error_iff.mp h).2)
    · rw [bindE_error_iff] at h
      rcases h with h | ⟨upperTs, hts, h⟩
      · exact Or.inl (pyGetE_error h)
      rw [bindE_error_iff] at h
      rcases h with h | ⟨kLast, hk, h⟩
      · exact Or.inl (pyGetE_error h)
      · exact Or.inr (Or.inl (raiseIf_error_iff.mp h).2)

theorem checkObservedCov_error {tgt : Series} {obs : Option Series} {out skip : Int}
    {w : Int × Int} {e : Err} (h : checkObservedCov tgt obs out skip w = .error e) :
    e = .lookupError ∨ e = .observedTimestampTooEarly := by
  unfold checkObservedCov at h
  split at h
  · exact absurd h (by simp)
  · split at h
    · rw [bindE_error_iff] at h
      rcases h with h | ⟨oLast, ho, h⟩
      · exact Or.inl (pyGetE_error h)
      · exact Or.inr (raiseIf_error_iff.mp h).2
    · rw [bindE_error_iff] at h
      rcases h with h | ⟨ts, hts, h⟩
      · exact Or.inl (pyGetE_error h)
      rw [bindE_error_iff] at h
      rcases h with h | ⟨oLast, ho, h⟩
      · exact Or.inl (pyGetE_error h)
      · exact Or.inr (raiseIf_error_iff.mp h).2

theorem validateSeries_ok_inv {tgt : Series} {kno obs : Option Series}
    {in0 out skip stride : Int} {win : Option (Int × Int)} {w : Int × Int}
    (h : validateSeries tgt kno obs in0 out skip stride win = .ok w) :
    checkScalars tgt in0 out skip stride = .ok () ∧
    resolveWindow tgt in0 out skip win = .ok w ∧
    checkWindowBounds tgt in0 out skip w = .ok () ∧
    checkTargetLen tgt in0 out skip w = .ok () ∧
    checkKnownCov tgt kno w = .ok () ∧
    checkObservedCov tgt obs out skip w = .ok () := by
  unfold validateSeries at h
  rw [bindE_ok_iff] at h
  obtain ⟨u1, h1, h⟩ := h
  rw [bindE_ok_iff] at h
  obtain ⟨w0, h2, h⟩ := h
  rw [bindE_ok_iff] at h
  obtain ⟨u2, h3, h⟩ := h
  rw [bindE_ok_iff] at h
  obtain ⟨u3, h4, h⟩ := h
  rw [bindE_ok_iff] at h
  obtain ⟨u4, h5, h⟩ := h
  rw [bindE_ok_iff] at h
  obtain ⟨u5, h6, h⟩ := h
  cases h
  cases u1; cases u2; cases u3; cases u4; cases u5
  exact ⟨h1, h2, h3, h4, h5, h6⟩

/-- Reassembly direction: the validation chain succeeds when each stage does. -/
theorem validateSeries_ok_of_stages {tgt : Series} {kno obs : Option Series}
    {in0 out skip stride : Int} {win : Option (Int × Int)} {w : Int × Int}
    (h1 : checkScalars tgt in0 out skip stride = .ok ())
    (h2 : resolveWindow tgt in0 out skip win = .ok w)
    (h3 : checkWindowBounds tgt in0 out skip w = .ok ())
    (h4 : checkTargetLen tgt in0 out skip w = .ok ())
    (h5 : checkKnownCov tgt kno w = .ok ())
    (h6 : checkObservedCov tgt obs out skip w = .ok ()) :
    validateSeries tgt kno obs in0 out skip stride win = .ok w := by
  unfold validateSeries
  rw [h1, h2]
  show bindE (checkWindowBounds tgt in0 out skip w) _ = _
  rw [h3]
  show bindE (checkTargetLen tgt in0 out skip w) _ = _
  rw [h4]
  show bindE (checkKnownCov tgt kno w) _ = _
  rw [h5]
  show bindE (checkObservedCov tgt obs out skip w) _ = _
  rw [h6]
  rfl

/-- Arithmetic facts available for every successfully validated input. -/
theorem validateSeries_ok_facts {tgt : Series} {kno obs : Option Series}
    {in0 out skip stride : Int} {win : Option (Int × Int)} {w : Int × Int}
    (h : validateSeries tgt kno obs in0 out skip stride win = .ok w) :
    1 ≤ tgt.rows.length ∧ 0 ≤ in0 ∧ 0 ≤ skip ∧ 0 < out ∧ 0 < stride ∧
    minAllowedWindow in0 skip out ≤ w.1 ∧ w.2 ≤ maxAllowedWindow tgt.rows.length skip out := by
  obtain ⟨h1, _, h3, _, _, _⟩ := validateSeries_ok_inv h
  obtain ⟨a, b, c, d, e⟩ := checkScalars_ok_iff.mp h1
  obtain ⟨f, g⟩ := checkWindowBounds_ok_iff.mp h3
  exact ⟨a, b, c, d, e, f, g⟩

/-! ### Constructor inversion -/

theorem construct_ok_inv {tgt : Series} {kno obs : Option Series} {in0 out skip stride : Int}
    {win : Option (Int × Int)} {d : MLDataset}
    (h : construct (some ⟨some tgt, kno, obs⟩) in0 out skip stride win = .ok d) :
    validateSeries tgt kno obs in0 out skip stride win = .ok d.window ∧
    buildSamplesList tgt kno obs in0 out skip (sampleTails d.window.1 d.window.2 stride) =
      .ok d.samples := by
  have h' : constructCore tgt kno obs in0 out skip stride win = .ok d := h
  unfold constructCore at h'
  rw [bindE_ok_iff] at h'
  obtain ⟨w, hw, h'⟩ := h'
  rw [bindE_ok_iff] at h'
  obtain ⟨ss, hss, h'⟩ := h'
  cases h'
  exact ⟨hw, hss⟩

/-- Every sample of a constructed dataset is built by `buildSample` at the
tail `lower + stride * i` lying inside the resolved window. -/
theorem construct_sample {tgt : Series} {kno obs : Option Series} {in0 out skip stride : Int}
    {win : Option (Int × Int)} {d : MLDataset} {i : Nat} {s : Sample}
    (h : construct (some ⟨some tgt, kno, obs⟩) in0 out skip stride win = .ok d)
    (hs : d.samples.get? i = some s) :
    buildSample tgt kno obs in0 out skip (d.window.1 + stride * (i : Int)) = .ok s ∧
    d.window.1 ≤ d.window.1 + stride * (i : Int) ∧
    d.window.1 + stride * (i : Int) ≤ d.window.2 := by
  obtain ⟨hval, hbuild⟩ := construct_ok_inv h
  have hstride : 0 < stride := (validateSeries_ok_facts hval).2.2.2.2.1
  obtain ⟨t, hts, hbs⟩ := buildSamplesList_get? hbuild hs
  obtain ⟨ht, hl, hr⟩ := sampleTails_get? hstride hts
  subst ht
  exact ⟨hbs, hl, hr⟩

/-- Success of the known-cov validation in the inference regime
(`window.upper > max_target_idx`) yields the coverage facts of its two
guards: the last target timestamp occurs in the known index at some
position, and the known rows from there on outnumber the exceeded steps. -/
theorem checkKnownCov_ok_infer {tgt k : Series} {w : Int × Int}
    (hreg : (tgt.rows.length : Int) - 1 < w.2)
    (h : checkKnownCov tgt (some k) w = .ok ()) :
    ∃ pos : Nat, getLoc k (tgt.start + ((tgt.rows.length : Int) - 1)) = some pos ∧
      w.2 - ((tgt.rows.length : Int) - 1) < (k.rows.length : Int) - (pos : Int) := by
  simp only [checkKnownCov] at h
  rw [if_pos hreg] at h
  rw [bindE_ok_iff] at h
  obtain ⟨kLast, hk, h⟩ := h
  rw [bindE_ok_iff] at h
  obtain ⟨u, hu, h⟩ := h
  rw [bindE_ok_iff] at h
  obtain ⟨idx, hidx, h⟩ := h
  rw [raiseIf_ok_iff] at h
  exact ⟨idx, getLocE_ok_iff.mp hidx, by omega⟩

/-! ### Claims -/

/-- C1: for every valid configuration and resolved window `(lower, upper)`
(with the TimeWindow invariant `lower ≤ upper`), the constructed dataset's
`length()` equals `floor((upper - lower) / sampling_stride) + 1`. -/
theorem c1_length_formula (tgt : Series) (kno obs : Option Series)
    (in0 out skip stride : Int) (win : Option (Int × Int)) (d : MLDataset)
    (h : construct (some ⟨some tgt, kno, obs⟩) in0 out skip stride win = .ok d)
    (hlu : d.window.1 ≤ d.window.2) :
    length d = (d.window.2 - d.window.1).toNat / stride.toNat + 1 := by
  obtain ⟨hval, hbuild⟩ := construct_ok_inv h
  have hstride : 0 < stride := (validateSeries_ok_facts hval).2.2.2.2.1
  unfold length
  rw [buildSamplesList_length hbuild, sampleTails_length hstride hlu]

/-- C1 witness: target of 5 rows, `in=1, out=1, skip=0, stride=2`, default
window `(1, 4)`, giving `(4 - 1) / 2 + 1 = 2` samples. -/
theorem c1_witness :
    length strideTwoDs =
      (strideTwoDs.window.2 - strideTwoDs.window.1).toNat / (2 : Int).toNat + 1 :=
  c1_length_formula tgt5 none none 1 1 0 2 none strideTwoDs rfl (by decide)

/-- C2: evaluation at the failing input.  `shortTarget` has timestamps
0..2 while `knownShort` only covers timestamps 1..2; validation passes (the
known covariate's last timestamp equals the window-upper timestamp), yet
the first built sample's `known_cov` has 1 row instead of
`in_chunk_len + out_chunk_len = 2`, because the left sub-slice `[-1:0]`
silently collapses under Python negative-index wraparound. -/
theorem c2_known_cov_row_deficit :
    (construct (some ⟨some shortTarget, some knownShort, none⟩) 1 1 0 1 none).map
      (fun d => d.samples.map (fun s => s.known_cov.length)) = .ok [1, 2] := by
  rfl

/-- C4: whenever the caller omits `time_window` and construction succeeds,
the window resolves to
`(max(1, in_chunk_len) + skip_chunk_len + out_chunk_len - 1, len(target) - 1)`. -/
theorem c4_default_window (tgt : Series) (kno obs : Option Series)
    (in0 out skip stride : Int) (d : MLDataset)
    (h : construct (some ⟨some tgt, kno, obs⟩) in0 out skip stride none = .ok d) :
    d.window = (max 1 in0 + skip + out - 1, (tgt.rows.length : Int) - 1) := by
  obtain ⟨hval, _⟩ := construct_ok_inv h
  obtain ⟨_, h2, _⟩ := validateSeries_ok_inv hval
  rcases resolveWindow_ok_inv h2 with hcontra | ⟨_, hw, _⟩
  · exact absurd hcontra (by simp)
  · exact hw

/-- C4 witness: the default window of a 5-row target with
`in=1, out=1, skip=0` is `(1, 4)`. -/
theorem c4_witness :
    strideOneDs.window = (max 1 (1 : Int) + 0 + 1 - 1, (tgt5.rows.length : Int) - 1) :=
  c4_default_window tgt5 none none 1 1 0 1 strideOneDs rfl

/-- C6: with a caller-supplied window whose upper bound exceeds
`len(target) - 1` and a known covariate present, a successful construction
implies the target's last timestamp occurs in the known covariate's index
and the known rows from that position onward strictly outnumber
`exceeded = upper - (len(target) - 1)`; contrapositively, construction
fails whenever the known covariate does not extend `exceeded` steps past
the target's last timestamp. -/
theorem c6_known_inference_coverage (tgt k : Series) (obs : Option Series)
    (in0 out skip stride lo up : Int) (d : MLDataset)
    (h : construct (some ⟨some tgt, some k, obs⟩) in0 out skip stride (some (lo, up)) = .ok d)
    (hup : (tgt.rows.length : Int) - 1 < up) :
    ∃ pos : Nat, getLoc k (tgt.start + ((tgt.rows.length : Int) - 1)) = some pos ∧
      up - ((tgt.rows.length : Int) - 1) < (k.rows.length : Int) - (pos : Int) := by
  obtain ⟨hval, _⟩ := construct_ok_inv h
  obtain ⟨_, h2, _, _, h5, _⟩ := validateSeries_ok_inv hval
  have h2' : (Except.ok (lo, up) : Except Err (Int × Int)) = .ok d.window := h2
  have hw : d.window = (lo, up) := (Except.ok.inj h2').symm
  have hup2 : d.window.2 = up := by rw [hw]
  rw [← hup2]
  rw [← hup2] at hup
  exact checkKnownCov_ok_infer hup (hw ▸ h5)

/-- C6 witness: 3-row target (timestamps 0..2), known covariate over
timestamps 0..4, window `(3, 3)`: the target's last timestamp sits at known
position 2 and `3 - 2 = 1 < 5 - 2` rows remain. -/
theorem c6_witness :
    ∃ pos : Nat, getLoc known5 (tgt3.start + ((tgt3.rows.length : Int) - 1)) = some pos ∧
      (3 : Int) - ((tgt3.rows.length : Int) - 1) < (known5.rows.length : Int) - (pos : Int) :=
  c6_known_inference_coverage tgt3 known5 none 1 1 0 1 3 3 knownInferDs rfl (by decide)

/-- C10 counterexample: with valid scalars and the caller-supplied window
`(1, 0)` satisfying `lower = 1 ≥ min_allowed = 1` and
`upper = 0 ≤ max_allowed = 1` but `upper < lower`, construction on a 1-row
target nevertheless raises (the regime-A target-length validation fires),
so the claim's "construction raises no error" is false as stated. -/
theorem c10_counterexample :
    construct (some ⟨some tgt1, none, none⟩) 1 1 0 1 (some (1, 0)) =
      .error Err.targetTooShort := by
  rfl

/-- C10 (amended): the `lower ≤ upper` relation is never validated; whenever
the rest of validation passes on a window with `upper < lower`, construction
succeeds and the dataset is empty (`length() = 0`). -/
theorem c10_degenerate_window (tgt : Series) (kno obs : Option Series)
    (in0 out skip stride lo up : Int)
    (hval : validateSeries tgt kno obs in0 out skip stride (some (lo, up)) = .ok (lo, up))
    (hrev : up < lo) :
    (construct (some ⟨some tgt, kno, obs⟩) in0 out skip stride (some (lo, up))).map length =
      .ok 0 := by
  have htails : sampleTails lo up stride = [] := by
    unfold sampleTails
    have h0 : (up + 1 - lo).toNat = 0 := by omega
    rw [h0]
    rfl
  show (constructCore tgt kno obs in0 out skip stride (some (lo, up))).map length = .ok 0
  unfold constructCore
  rw [hval]
  simp only [bindE]
  rw [show sampleTails (lo, up).1 (lo, up).2 stride = [] from htails]
  rfl

/-- C10 witness: 3-row target, valid scalars, window `(2, 1)` inside the
allowed bounds with `upper < lower`: construction succeeds with 0 samples. -/
theorem c10_witness :
    (construct (some ⟨some tgt3, none, none⟩) 1 1 0 1 (some (2, 1))).map length = .ok 0 :=
  c10_degenerate_window tgt3 none none 1 1 0 1 2 1 rfl (by decide)

/-- C3: for every produced sample (at position `i`, hence tail
`t = lower + stride * i`): `future_target` has `out_chunk_len` rows when
`t ≤ len(target) - 1` and 0 rows otherwise, and `past_target` has 0 rows
iff `in_chunk_len = 0`, otherwise exactly `in_chunk_len` rows. -/
theorem c3_sample_target_shapes (tgt : Series) (kno obs : Option Series)
    (in0 out skip stride : Int) (win : Option (Int × Int)) (d : MLDataset) (i : Nat) (s : Sample)
    (h : construct (some ⟨some tgt, kno, obs⟩) in0 out skip stride win = .ok d)
    (hs : d.samples.get? i = some s) :
    (s.future_target.length =
      if d.window.1 + stride * (i : Int) ≤ (tgt.rows.length : Int) - 1 then out.toNat else 0) ∧
    (s.past_target.length = 0 ↔ in0 = 0) ∧
    (in0 ≠ 0 → s.past_target.length = in0.toNat) := by
  obtain ⟨hval, _⟩ := construct_ok_inv h
  obtain ⟨hlen, hin, hskip, hout, hstrid, hminw, hmaxw⟩ := validateSeries_ok_facts hval
  have hminw' : max 1 in0 + skip + out - 1 ≤ d.window.1 := hminw
  have hmaxw' : d.window.2 ≤ (tgt.rows.length : Int) - 1 + skip + out := hmaxw
  have hmm := max_choice (1 : Int) in0
  obtain ⟨hbs, hlo, hhi⟩ := construct_sample h hs
  obtain ⟨hpast, hfut, _⟩ := buildSample_ok_inv hbs
  refine ⟨?_, ?_, ?_⟩
  · rw [hfut]
    unfold futureTargetChunk
    by_cases hreg : (tgt.rows.length : Int) - 1 < d.window.1 + stride * (i : Int)
    · rw [if_pos hreg, if_neg (by omega)]
      rfl
    · rw [if_neg hreg, if_pos (by omega)]
      have hb := length_pySlice_of_bounds tgt.rows
        (d.window.1 + stride * (i : Int) - out + 1)
        (d.window.1 + stride * (i : Int) + 1) (by omega) (by omega) (by omega)
      omega
  · rw [hpast]
    unfold pastTargetChunk
    by_cases hin0 : in0 = 0
    · rw [if_pos hin0]
      simp [hin0]
    · rw [if_neg hin0]
      have hb := length_pySlice_of_bounds tgt.rows
        ((d.window.1 + stride * (i : Int) - out - skip) - in0 + 1)
        ((d.window.1 + stride * (i : Int) - out - skip) + 1)
        (by omega) (by omega) (by omega)
      constructor
      · intro hzero
        omega
      · intro hc
        exact absurd hc hin0
  · intro hin0
    rw [hpast]
    unfold pastTargetChunk
    rw [if_neg hin0]
    have hb := length_pySlice_of_bounds tgt.rows
      ((d.window.1 + stride * (i : Int) - out - skip) - in0 + 1)
      ((d.window.1 + stride * (i : Int) - out - skip) + 1)
      (by omega) (by omega) (by omega)
    omega

/-- C3 witness: first sample of the 5-row stride-1 dataset: `future_target`
has 1 row (tail `1 ≤ 4`), `past_target` has `in_chunk_len = 1` row. -/
theorem c3_witness :
    ((⟨[[0]], [[10]], [], []⟩ : Sample).future_target.length =
      if strideOneDs.window.1 + 1 * ((0 : Nat) : Int) ≤ (tgt5.rows.length : Int) - 1
      then (1 : Int).toNat else 0) ∧
    ((⟨[[0]], [[10]], [], []⟩ : Sample).past_target.length = 0 ↔ (1 : Int) = 0) ∧
    ((1 : Int) ≠ 0 → (⟨[[0]], [[10]], [], []⟩ : Sample).past_target.length = (1 : Int).toNat) :=
  c3_sample_target_shapes tgt5 none none 1 1 0 1 none strideOneDs 0 ⟨[[0]], [[10]], [], []⟩
    rfl rfl

/-- C5: for every produced sample (tail `t = lower + stride * i`) of a
dataset with a known covariate, the sample's `known_cov` equals the rows
`[right_tail - out - skip - in + 1 .. right_tail - out - skip]` of the
known covariate stacked before its rows `[right_tail - out + 1 .. right_tail]`,
where `right_tail` is the position (in the known covariate's own index) of
the target timestamp at `t` when `t ≤ len(target) - 1`, and the position of
the target's last timestamp plus `skip + out` when `t > len(target) - 1`. -/
theorem c5_known_cov_assembly (tgt k : Series) (obs : Option Series)
    (in0 out skip stride : Int) (win : Option (Int × Int)) (d : MLDataset) (i : Nat) (s : Sample)
    (h : construct (some ⟨some tgt, some k, obs⟩) in0 out skip stride win = .ok d)
    (hs : d.samples.get? i = some s) :
    ∃ rt : Int,
      (d.window.1 + stride * (i : Int) ≤ (tgt.rows.length : Int) - 1 →
        0 ≤ rt ∧ getLoc k (tgt.start + (d.window.1 + stride * (i : Int))) = some rt.toNat) ∧
      ((tgt.rows.length : Int) - 1 < d.window.1 + stride * (i : Int) →
        ∃ m : Nat, getLoc k (tgt.start + ((tgt.rows.length : Int) - 1)) = some m ∧
          rt = (m : Int) + skip + out) ∧
      s.known_cov =
        pySlice k.rows (rt - out - skip - in0 + 1) (rt - out - skip + 1) ++
        pySlice k.rows (rt - out + 1) (rt + 1) := by
  obtain ⟨hval, _⟩ := construct_ok_inv h
  obtain ⟨hlen, hin, hskip, hout, hstrid, hminw, hmaxw⟩ := validateSeries_ok_facts hval
  have hminw' : max 1 in0 + skip + out - 1 ≤ d.window.1 := hminw
  have hmm := max_choice (1 : Int) in0
  obtain ⟨hbs, hlo, hhi⟩ := construct_sample h hs
  obtain ⟨_, _, hknown, _, _, _⟩ := buildSample_ok_inv hbs
  have hk := hknown k rfl
  unfold buildKnownChunk at hk
  rw [bindE_ok_iff] at hk
  obtain ⟨rt, hrt, hk⟩ := hk
  have hkeq : s.known_cov =
      pySlice k.rows (rt - out - skip - in0 + 1) (rt - out - skip + 1) ++
      pySlice k.rows (rt - out + 1) (rt + 1) := (Except.ok.inj hk).symm
  refine ⟨rt, ?_, ?_, hkeq⟩
  · intro hle
    unfold knownRightTail at hrt
    rw [if_neg (by omega)] at hrt
    rw [bindE_ok_iff] at hrt
    obtain ⟨ts, hts, hrt⟩ := hrt
    rw [pyGetE_ok_iff,
      pyGet_timeIndex (by omega) (by omega)] at hts
    cases hts
    rw [bindE_ok_iff] at hrt
    obtain ⟨idx, hidx, hrt⟩ := hrt
    have hrt' : rt = (idx : Int) := (Except.ok.inj hrt).symm
    subst hrt'
    refine ⟨by omega, ?_⟩
    have hg := getLocE_ok_iff.mp hidx
    have hcast : ((idx : Int)).toNat = idx := by omega
    rw [hcast]
    exact hg
  · intro hgt
    unfold knownRightTail at hrt
    rw [if_pos (by omega)] at hrt
    rw [bindE_ok_iff] at hrt
    obtain ⟨maxTs, hmax, hrt⟩ := hrt
    rw [pyGetE_ok_iff, pyGet_timeIndex_last (by omega)] at hmax
    cases hmax
    rw [bindE_ok_iff] at hrt
    obtain ⟨m, hm, hrt⟩ := hrt
    have hrt' : rt = (m : Int) + skip + out := (Except.ok.inj hrt).symm
    exact ⟨m, getLocE_ok_iff.mp hm, hrt'⟩

/-- C5 witness: first sample of the known-covariate training dataset over
`tgt3`/`known5`: its `known_cov = [[10], [20]]` decomposes as the claimed
left/right slices around `right_tail = 1`. -/
theorem c5_witness :
    ∃ rt : Int,
      (knownTrainDs.window.1 + 1 * ((0 : Nat) : Int) ≤ (tgt3.rows.length : Int) - 1 →
        0 ≤ rt ∧ getLoc known5 (tgt3.start + (knownTrainDs.window.1 + 1 * ((0 : Nat) : Int))) =
          some rt.toNat) ∧
      ((tgt3.rows.length : Int) - 1 < knownTrainDs.window.1 + 1 * ((0 : Nat) : Int) →
        ∃ m : Nat, getLoc known5 (tgt3.start + ((tgt3.rows.length : Int) - 1)) = some m ∧
          rt = (m : Int) + 0 + 1) ∧
      (⟨[[1]], [[2]], [[10], [20]], []⟩ : Sample).known_cov =
        pySlice known5.rows (rt - 1 - 0 - 1 + 1) (rt - 1 - 0 + 1) ++
        pySlice known5.rows (rt - 1 + 1) (rt + 1) :=
  c5_known_cov_assembly tgt3 known5 none 1 1 0 1 none knownTrainDs 0
    ⟨[[1]], [[2]], [[10], [20]], []⟩ rfl rfl

/-- C7: when an observed covariate is present (a nonempty series, with the
resolved window satisfying the TimeWindow invariant `lower ≤ upper`) and
every validation stage before the observed check passes, the whole
validation raises the observed-covariate error if and only if: in the
inference regime (`upper > len(target) - 1`) the observed series' last
timestamp is earlier than the target's last timestamp, or in the training
regime (`upper ≤ len(target) - 1`) it is earlier than the target timestamp
at index `upper - skip_chunk_len - out_chunk_len`; otherwise validation
succeeds. -/
theorem c7_observed_validation (tgt : Series) (kno : Option Series) (o : Series)
    (in0 out skip stride : Int) (win : Option (Int × Int)) (w : Int × Int)
    (hbase : validateSeries tgt kno none in0 out skip stride win = .ok w)
    (hne : o.rows ≠ []) (hlu : w.1 ≤ w.2) :
    validateSeries tgt kno (some o) in0 out skip stride win =
      (if ((tgt.rows.length : Int) - 1 < w.2 ∧
            o.start + ((o.rows.length : Int) - 1) < tgt.start + ((tgt.rows.length : Int) - 1)) ∨
          (w.2 ≤ (tgt.rows.length : Int) - 1 ∧
            o.start + ((o.rows.length : Int) - 1) < tgt.start + (w.2 - skip - out))
       then .error Err.observedTimestampTooEarly
       else .ok w) := by
  obtain ⟨h1, h2, h3, h4, h5, _⟩ := validateSeries_ok_inv hbase
  obtain ⟨hlen, hin, hskip, hout, hstrid⟩ := checkScalars_ok_iff.mp h1
  obtain ⟨hminw, hmaxw⟩ := checkWindowBounds_ok_iff.mp h3
  have hminw' : max 1 in0 + skip + out - 1 ≤ w.1 := hminw
  have hmm := max_choice (1 : Int) in0
  have hono : 1 ≤ o.rows.length := by
    cases ho : o.rows with
    | nil => exact absurd ho hne
    | cons a l => simp [ho]
  have holast : pyGetE (timeIndex o) (-1) = .ok (o.start + ((o.rows.length : Int) - 1)) := by
    rw [pyGetE_ok_iff]
    exact pyGet_timeIndex_last hono
  have hobs : checkObservedCov tgt (some o) out skip w =
      (if ((tgt.rows.length : Int) - 1 < w.2 ∧
            o.start + ((o.rows.length : Int) - 1) < tgt.start + ((tgt.rows.length : Int) - 1)) ∨
          (w.2 ≤ (tgt.rows.length : Int) - 1 ∧
            o.start + ((o.rows.length : Int) - 1) < tgt.start + (w.2 - skip - out))
       then .error Err.observedTimestampTooEarly
       else .ok ()) := by
    simp only [checkObservedCov]
    by_cases hreg : (tgt.rows.length : Int) - 1 < w.2
    · rw [if_pos hreg, holast]
      simp only [bindE]
      unfold raiseIf
      by_cases hcmp : o.start + ((o.rows.length : Int) - 1) <
          tgt.start + ((tgt.rows.length : Int) - 1)
      · rw [if_pos hcmp, if_pos (Or.inl ⟨hreg, hcmp⟩)]
      · rw [if_neg hcmp, if_neg ?_]
        rintro (⟨_, hc⟩ | ⟨hr, _⟩)
        · exact hcmp hc
        · omega
    · rw [if_neg hreg]
      have hts : pyGetE (timeIndex tgt) (w.2 - skip - out) =
          .ok (tgt.start + (w.2 - skip - out)) := by
        rw [pyGetE_ok_iff]
        exact pyGet_timeIndex (by omega) (by omega)
      rw [hts]
      simp only [bindE]
      rw [holast]
      simp only [bindE]
      unfold raiseIf
      by_cases hcmp : o.start + ((o.rows.length : Int) - 1) < tgt.start + (w.2 - skip - out)
      · rw [if_pos hcmp, if_pos (Or.inr ⟨by omega, hcmp⟩)]
      · rw [if_neg hcmp, if_neg ?_]
        rintro (⟨hr, _⟩ | ⟨_, hc⟩)
        · exact hreg hr
        · exact hcmp hc
  by_cases hcond : ((tgt.rows.length : Int) - 1 < w.2 ∧
        o.start + ((o.rows.length : Int) - 1) < tgt.start + ((tgt.rows.length : Int) - 1)) ∨
      (w.2 ≤ (tgt.rows.length : Int) - 1 ∧
        o.start + ((o.rows.length : Int) - 1) < tgt.start + (w.2 - skip - out))
  · rw [if_pos hcond]
    unfold validateSeries
    rw [h1]
    simp only [bindE]
    rw [h2]
    simp only [bindE]
    rw [h3]
    simp only [bindE]
    rw [h4]
    simp only [bindE]
    rw [h5]
    simp only [bindE]
    rw [hobs, if_pos hcond]
  · rw [if_neg hcond]
    exact validateSeries_ok_of_stages h1 h2 h3 h4 h5 (by rw [hobs, if_neg hcond])

/-- C7 witness: 5-row target, observed covariate over the same timestamps,
default window `(1, 4)` (training regime): the observed last timestamp 4 is
not earlier than the timestamp at index `4 - 0 - 1 = 3`, so validation
succeeds; the equation instantiates to the `.ok` branch. -/
theorem c7_witness :
    validateSeries tgt5 none (some obs5) 1 1 0 1 none =
      (if ((tgt5.rows.length : Int) - 1 < ((1 : Int), (4 : Int)).2 ∧
            obs5.start + ((obs5.rows.length : Int) - 1) <
              tgt5.start + ((tgt5.rows.length : Int) - 1)) ∨
          (((1 : Int), (4 : Int)).2 ≤ (tgt5.rows.length : Int) - 1 ∧
            obs5.start + ((obs5.rows.length : Int) - 1) <
              tgt5.start + (((1 : Int), (4 : Int)).2 - 0 - 1))
       then .error Err.observedTimestampTooEarly
       else .ok ((1 : Int), (4 : Int))) :=
  c7_observed_validation tgt5 none obs5 1 1 0 1 none (1, 4) rfl (by decide) (by decide)

/-- C8: with valid scalar parameters and a nonempty target, construction
with a caller-supplied window fails with a window-bound validation error
(`WindowLowerBoundError` / `WindowUpperBoundError`) if and only if
`lower < max(1, in_chunk_len) + skip_chunk_len + out_chunk_len - 1` or
`upper > len(target) - 1 + skip_chunk_len + out_chunk_len`; and every
constructed dataset's resolved window satisfies
`lower ≥ min_allowed_window` and `upper ≤ max_allowed_window`. -/
theorem c8_window_bounds (tgt : Series) (kno obs : Option Series)
    (in0 out skip stride lo up : Int) (win : Option (Int × Int)) (d : MLDataset)
    (h1 : 1 ≤ tgt.rows.length) (h2 : 0 ≤ in0) (h3 : 0 ≤ skip) (h4 : 0 < out) (h5 : 0 < stride) :
    ((∃ e, construct (some ⟨some tgt, kno, obs⟩) in0 out skip stride (some (lo, up)) =
        .error e ∧ (e = Err.windowLowerBound ∨ e = Err.windowUpperBound)) ↔
      (lo < max 1 in0 + skip + out - 1 ∨ (tgt.rows.length : Int) - 1 + skip + out < up)) ∧
    (construct (some ⟨some tgt, kno, obs⟩) in0 out skip stride win = .ok d →
      minAllowedWindow in0 skip out ≤ d.window.1 ∧
      d.window.2 ≤ maxAllowedWindow tgt.rows.length skip out) := by
  constructor
  · constructor
    · rintro ⟨e, he, hkind⟩
      have he' : constructCore tgt kno obs in0 out skip stride (some (lo, up)) = .error e := he
      unfold constructCore at he'
      rw [bindE_error_iff] at he'
      rcases he' with hv | ⟨w, hw, hb⟩
      · unfold validateSeries at hv
        rw [bindE_error_iff] at hv
        rcases hv with hv | ⟨u1, hu1, hv⟩
        · have := checkScalars_error hv
          rcases hkind with rfl | rfl <;> simp at this
        rw [bindE_error_iff] at hv
        rcases hv with hv | ⟨w, hw, hv⟩
        · have := resolveWindow_error hv
          rcases hkind with rfl | rfl <;> simp at this
        have hw0 : (Except.ok (lo, up) : Except Err (Int × Int)) = .ok w := hw
        have hw' : w = (lo, up) := (Except.ok.inj hw0).symm
        subst hw'
        rw [bindE_error_iff] at hv
        rcases hv with hv | ⟨u2, hu2, hv⟩
        · rcases checkWindowBounds_error_iff.mp hv with ⟨_, hc⟩ | ⟨_, _, hc⟩
          · have hc' : lo < max 1 in0 + skip + out - 1 := hc
            exact Or.inl hc'
          · have hc' : (tgt.rows.length : Int) - 1 + skip + out < up := hc
            exact Or.inr hc'
        rw [bindE_error_iff] at hv
        rcases hv with hv | ⟨u3, hu3, hv⟩
        · have := checkTargetLen_error hv
          rcases hkind with rfl | rfl <;> simp at this
        rw [bindE_error_iff] at hv
        rcases hv with hv | ⟨u4, hu4, hv⟩
        · have := checkKnownCov_error hv
          rcases hkind with rfl | rfl <;> simp at this
        rw [bindE_error_iff] at hv
        rcases hv with hv | ⟨u5, hu5, hv⟩
        · have := checkObservedCov_error hv
          rcases hkind with rfl | rfl <;> simp at this
        · exact absurd hv (by simp)
      · rw [bindE_error_iff] at hb
        rcases hb with hb | ⟨ss, hss, hb⟩
        · have := buildSamplesList_error hb
          rcases hkind with rfl | rfl <;> simp at this
        · exact absurd hb (by simp)
    · intro hbound
      have hscal : checkScalars tgt in0 out skip stride = .ok () :=
        checkScalars_ok_iff.mpr ⟨h1, h2, h3, h4, h5⟩
      by_cases hlo : lo < minAllowedWindow in0 skip out
      · refine ⟨.windowLowerBound, ?_, Or.inl rfl⟩
        show constructCore tgt kno obs in0 out skip stride (some (lo, up)) = .error _
        unfold constructCore validateSeries
        rw [hscal]
        simp only [bindE]
        rw [resolveWindow_some]
        simp only [bindE]
        rw [show checkWindowBounds tgt in0 out skip (lo, up) = .error .windowLowerBound from
          checkWindowBounds_error_iff.mpr (Or.inl ⟨rfl, hlo⟩)]
      · have hge : minAllowedWindow in0 skip out ≤ lo := by omega
        have hup : maxAllowedWindow tgt.rows.length skip out < up := by
          rcases hbound with hb | hb
          · have hb' : lo < minAllowedWindow in0 skip out := hb
            exact absurd hb' hlo
          · exact hb
        refine ⟨.windowUpperBound, ?_, Or.inr rfl⟩
        show constructCore tgt kno obs in0 out skip stride (some (lo, up)) = .error _
        unfold constructCore validateSeries
        rw [hscal]
        simp only [bindE]
        rw [resolveWindow_some]
        simp only [bindE]
        rw [show checkWindowBounds tgt in0 out skip (lo, up) = .error .windowUpperBound from
          checkWindowBounds_error_iff.mpr (Or.inr ⟨rfl, hge, hup⟩)]
  · intro hok
    obtain ⟨hval, _⟩ := construct_ok_inv hok
    have hf := validateSeries_ok_facts hval
    exact ⟨hf.2.2.2.2.2.1, hf.2.2.2.2.2.2⟩

/-- C8 witness: 2-row target with all scalars valid; the window `(0, 99)`
violates both bounds and construction fails with a window-bound error,
while the successfully constructed default-window dataset satisfies both
bound invariants. -/
theorem c8_witness :
    ((∃ e, construct (some ⟨some tgt2, none, none⟩) 1 1 0 1 (some (0, 99)) =
        .error e ∧ (e = Err.windowLowerBound ∨ e = Err.windowUpperBound)) ↔
      ((0 : Int) < max 1 1 + 0 + 1 - 1 ∨ (tgt2.rows.length : Int) - 1 + 0 + 1 < 99)) ∧
    (construct (some ⟨some tgt2, none, none⟩) 1 1 0 1 none = .ok twoRowDs →
      minAllowedWindow 1 0 1 ≤ twoRowDs.window.1 ∧
      twoRowDs.window.2 ≤ maxAllowedWindow tgt2.rows.length 0 1) :=
  c8_window_bounds tgt2 none none 1 1 0 1 0 99 none twoRowDs (by decide) (by decide)
    (by decide) (by decide) (by decide)

/-- C9 (amended): `get(index)` follows Python list indexing on the built
samples: it returns the `index`-th sample for `0 ≤ index < length()`,
returns sample `length() + index` for `-length() ≤ index < 0` (instead of
failing), and fails with the out-of-range error exactly when
`index ≥ length()` or `index < -length()`. -/
theorem c9_get_python_indexing (tgt : Series) (kno obs : Option Series)
    (in0 out skip stride : Int) (win : Option (Int × Int)) (d : MLDataset) (i : Int) (s : Sample)
    (h : construct (some ⟨some tgt, kno, obs⟩) in0 out skip stride win = .ok d) :
    (getItem d i = .error Err.indexOutOfRange ↔
      (i < -(d.samples.length : Int) ∨ (d.samples.length : Int) ≤ i)) ∧
    (getItem d i = .ok s →
      (0 ≤ i → d.samples.get? i.toNat = some s) ∧
      (i < 0 → d.samples.get? ((d.samples.length : Int) + i).toNat = some s)) := by
  constructor
  · unfold getItem
    cases hp : pyGet d.samples i with
    | none => exact iff_of_true rfl (pyGet_eq_none_iff.mp hp)
    | some a =>
        refine iff_of_false (by simp) ?_
        intro hc
        have h0 := pyGet_eq_none_iff.mpr hc
        rw [h0] at hp
        exact Option.noConfusion hp
  · intro hget
    unfold getItem at hget
    cases hp : pyGet d.samples i with
    | none =>
        rw [hp] at hget
        exact absurd hget (by simp)
    | some a =>
        rw [hp] at hget
        have ha : a = s := Except.ok.inj hget
        subst ha
        constructor
        · intro hpos
          by_cases hlt : i < (d.samples.length : Int)
          · rw [pyGet_of_nonneg hpos hlt] at hp
            exact hp
          · have h0 : pyGet d.samples i = none := pyGet_eq_none_iff.mpr (Or.inr (by omega))
            rw [h0] at hp
            exact Option.noConfusion hp
        · intro hneg
          by_cases hge : 0 ≤ (d.samples.length : Int) + i
          · rw [pyGet_of_neg hneg hge] at hp
            exact hp
          · have h0 : pyGet d.samples i = none := pyGet_eq_none_iff.mpr (Or.inl (by omega))
            rw [h0] at hp
            exact Option.noConfusion hp

/-- C9 witness: the 4-sample dataset; index `-1` is outside `[0, 3]` yet
returns the last sample rather than an error, matching the amended claim. -/
theorem c9_witness :
    (getItem strideOneDs (-1) = .error Err.indexOutOfRange ↔
      ((-1 : Int) < -(strideOneDs.samples.length : Int) ∨
        (strideOneDs.samples.length : Int) ≤ (-1 : Int))) ∧
    (getItem strideOneDs (-1) = .ok ⟨[[30]], [[40]], [], []⟩ →
      ((0 : Int) ≤ (-1 : Int) →
        strideOneDs.samples.get? (-1 : Int).toNat = some ⟨[[30]], [[40]], [], []⟩) ∧
      ((-1 : Int) < 0 →
        strideOneDs.samples.get? ((strideOneDs.samples.length : Int) + (-1 : Int)).toNat =
          some ⟨[[30]], [[40]], [], []⟩)) :=
  c9_get_python_indexing tgt5 none none 1 1 0 1 none strideOneDs (-1)
    ⟨[[30]], [[40]], [], []⟩ rfl

/-- C9 counterexample: the claim as stated says `get(index)` fails for
every index outside `[0, length() - 1]`; on the constructed 4-sample
dataset, `get(-1)` instead succeeds and returns the last sample. -/
theorem c9_counterexample :
    construct (some ⟨some tgt5, none, none⟩) 1 1 0 1 none = .ok strideOneDs ∧
    getItem strideOneDs (-1) = .ok ⟨[[30]], [[40]], [], []⟩ := ⟨rfl, rfl⟩

end PaddleTS
